import Mathlib

/-!
Verification of the tile-slicing pipeline of image_slicer.py: grid planning,
empty-tile classification, preview-box scaling, manifest serialization,
overview-image cropping, and the per-slide control flow of main.

Machine integers and Python floats are modelled by exact arithmetic: pixel
coordinates are naturals, thresholds and ratios are rationals.  Python int()
applied to a nonnegative float is floor, written as natural division here;
multiplying by an integer power of two is exact in binary floating point, so
this modelling loses nothing on the scaling expressions of the source.
-/

/-- An axis-aligned pixel rectangle (x0, y0, x1, y1) — the 4-tuple shape used
for work areas and boundary boxes throughout image_slicer.py. -/
structure Box where
  x0 : ℕ
  y0 : ℕ
  x1 : ℕ
  y1 : ℕ
deriving DecidableEq

/-- The SlideGrid record of image_slicer.py lines 22-32: tile number, boundary
box in full resolution, boundary box in preview resolution, and the flag set
from detect_empty_slide (1 = kept content tile, 0 = background). -/
structure SlideGrid where
  num : ℕ
  boundary_box : Box
  boundary_box_small : Box
  flag : ℕ
deriving DecidableEq

/-- One RGBA pixel of the numpy array built at image_slicer.py line 74
(channel 0 = red, 1 = green, 2 = blue, 3 = alpha).  The 2-D array is modelled
as its row-major list of pixels; none of the statistics below depend on the
2-D layout. -/
structure RGBA where
  r : ℕ
  g : ℕ
  b : ℕ
  a : ℕ
deriving DecidableEq

/-- Sum of the red channel, line 75: np.sum over channel 0. -/
def red_pixels_count (pixels : List RGBA) : ℕ := (pixels.map RGBA.r).sum

/-- Sum of the blue channel, line 76: np.sum over channel 2. -/
def blue_pixels_count (pixels : List RGBA) : ℕ := (pixels.map RGBA.b).sum

/-- Number of pixels with nonzero alpha, line 77: np.count_nonzero over
channel 3. -/
def alpha_nonzero_count (pixels : List RGBA) : ℕ :=
  (pixels.filter fun p => p.a ≠ 0).length

/-- The ratio of nonzero-alpha pixels, line 77 of image_slicer.py. -/
def alpha_pixels_ratio (pixels : List RGBA) : ℚ :=
  (alpha_nonzero_count pixels : ℚ) / (pixels.length : ℚ)

/-- The expression blue_pixels_count / (red_pixels_count + 1) of line 80. -/
def red_blue_ratio (pixels : List RGBA) : ℚ :=
  (blue_pixels_count pixels : ℚ) / ((red_pixels_count pixels : ℚ) + 1)

/-- Default of the threshold_alpha parameter, line 59. -/
def default_threshold_alpha : ℚ := 1/2

/-- Default of the threshold_red_blue_ratio parameter, line 60. -/
def default_threshold_red_blue_ratio : ℚ := 99/100

/-- detect_empty_slide, image_slicer.py lines 57-86.  Despite its docstring,
the returned flag is 1 for a kept (content) tile and 0 for a background tile,
as every caller uses it.  On a buffer with zero pixels the expression of line
77 divides by zero and Python raises ZeroDivisionError; that error branch is
modelled as none, and a normal return as some flag. -/
def detect_empty_slide (pixels : List RGBA)
    (threshold_alpha threshold_red_blue_ratio : ℚ) : Option ℕ :=
  if pixels.length = 0 then none
  else if alpha_pixels_ratio pixels > threshold_alpha then
    if red_blue_ratio pixels > threshold_red_blue_ratio then some 0 else some 1
  else some 0

/-- Line 280 of image_slicer.py: work_area_max_res scales every coordinate of
the detected work area by 2 ^ (max_zoom - zoom), written here for the case
max_zoom ≥ zoom (d = max_zoom - zoom), where the products are exact
integers exactly as in the source. -/
def work_area_max_res (wa : Box) (d : ℕ) : Box :=
  ⟨wa.x0 * 2 ^ d, wa.y0 * 2 ^ d, wa.x1 * 2 ^ d, wa.y1 * 2 ^ d⟩

/-- Line 281: num_images_x = int((work_area_max_res[2] - work_area_max_res[0])
/ image_width); int() of a nonnegative quotient is natural division. -/
def num_images_x (wa : Box) (image_width : ℕ) : ℕ :=
  (wa.x1 - wa.x0) / image_width

/-- Line 282: the analogous row count. -/
def num_images_y (wa : Box) (image_height : ℕ) : ℕ :=
  (wa.y1 - wa.y0) / image_height

/-- Line 306: int(cord * 2 ** (zoom - max_zoom)) for one coordinate, with
e = zoom - max_zoom.  For e ≥ 0 the product is an exact integer; for e < 0
the product is the exact dyadic rational c / 2 ^ (-e) (power-of-two scaling
is exact in floating point) and int() truncates it, i.e. natural division. -/
def scale_coord_small (e : ℤ) (c : ℕ) : ℕ :=
  if 0 ≤ e then c * 2 ^ e.toNat else c / 2 ^ (-e).toNat

/-- Lines 298-303: the full-resolution boundary box of the tile in column i,
row j of the grid over work area wa with tile size w × h. -/
def mk_boundary_box (wa : Box) (w h i j : ℕ) : Box :=
  ⟨wa.x0 + w * i, wa.y0 + h * j, wa.x0 + w * (i + 1), wa.y0 + h * (j + 1)⟩

/-- Line 306: boundary_box_small, every coordinate of the boundary box scaled
by 2 ^ (zoom - max_zoom) and truncated to an integer. -/
def mk_boundary_box_small (e : ℤ) (bb : Box) : Box :=
  ⟨scale_coord_small e bb.x0, scale_coord_small e bb.y0,
   scale_coord_small e bb.x1, scale_coord_small e bb.y1⟩

/-- The geometric part of the double loop of lines 294-311: for j in
range(num_images_y + 1) (rows, outer), for i in range(num_images_x + 1)
(columns, inner), the pair (boundary_box, boundary_box_small). -/
def plan_grid (wa : Box) (w h : ℕ) (e : ℤ) : List (Box × Box) :=
  (List.range (num_images_y wa h + 1)).flatMap fun j =>
    (List.range (num_images_x wa w + 1)).map fun i =>
      (mk_boundary_box wa w h i j, mk_boundary_box_small e (mk_boundary_box wa w h i j))

/-- The classification-and-numbering part of the loop of lines 292-318: num
starts at 0; per tile the flag is computed (classify abstracts
detect_empty_slide applied to the region read at the boundary boxes, a pure
function of them once the slide data is fixed), num is incremented when the
flag is 1, and the SlideGrid record stores the updated num. -/
def slice_loop (classify : Box × Box → ℕ) : ℕ → List (Box × Box) → List SlideGrid
  | _, [] => []
  | num, g :: rest =>
    let flag := classify g
    let num2 := if flag = 1 then num + 1 else num
    ⟨num2, g.1, g.2, flag⟩ :: slice_loop classify num2 rest

/-- A JSON value as produced for the manifest: the members of a SlideGrid are
an integer (num, flag) or a 4-tuple of integers (the boxes). -/
inductive JVal where
  | jnum : ℕ → JVal
  | jarr : List ℕ → JVal
deriving DecidableEq

/-- JSON form of a boundary-box tuple. -/
def box_json (b : Box) : JVal := .jarr [b.x0, b.y0, b.x1, b.y1]

/-- Line 141: vars(sg) — the key/value pairs of one SlideGrid in attribute
insertion order (num, boundary_box, boundary_box_small, flag). -/
def vars_slide_grid (sg : SlideGrid) : List (String × JVal) :=
  [("num", .jnum sg.num),
   ("boundary_box", box_json sg.boundary_box),
   ("boundary_box_small", box_json sg.boundary_box_small),
   ("flag", .jnum sg.flag)]

/-- Lines 141-142: the serialized manifest, one JSON object per SlideGrid in
list order. -/
def manifest_json (gs : List SlideGrid) : List (List (String × JVal)) :=
  gs.map vars_slide_grid

/-- Lines 125-129 of draw_gridmap: the crop rectangle of the overview image,
from slide_grids[0].boundary_box_small upper-left through the boundary box
(+1) of the final value of the loop variable slide_grid — the LAST element of
slide_grids, whatever its flag, because the loop assigns the variable on
every iteration and only gates the drawing on the flag.  An empty list would
raise IndexError in Python, modelled as none. -/
def crop_box : List SlideGrid → Option Box
  | [] => none
  | g0 :: rest =>
    some ⟨g0.boundary_box_small.x0, g0.boundary_box_small.y0,
          ((g0 :: rest).getLast (List.cons_ne_nil g0 rest)).boundary_box_small.x1 + 1,
          ((g0 :: rest).getLast (List.cons_ne_nil g0 rest)).boundary_box_small.y1 + 1⟩

/-- Row-major coordinates of the nonzero pixels of a single-channel image
(given as rows of luminance values). -/
def nonzero_positions (img : List (List ℕ)) : List (ℕ × ℕ) :=
  img.enum.flatMap fun yrow =>
    yrow.2.enum.filterMap fun xval =>
      if xval.2 ≠ 0 then some (xval.1, yrow.1) else none

/-- Models the external PIL call image_gray.getbbox() of line 273: the minimal
rectangle (left, upper, right-exclusive, lower-exclusive) enclosing the
nonzero pixels, or none — Python None — when every pixel is zero. -/
def getbbox (img : List (List ℕ)) : Option Box :=
  match nonzero_positions img with
  | [] => none
  | p :: ps =>
    some ⟨(ps.map Prod.fst).foldl min p.1, (ps.map Prod.snd).foldl min p.2,
          (ps.map Prod.fst).foldl max p.1 + 1, (ps.map Prod.snd).foldl max p.2 + 1⟩

/-- Lines 267-318 for one slide: detect the work area on the preview level,
scale it by 2 ^ (max_zoom - zoom) (d = max_zoom - zoom ≥ 0), and run the grid
loop.  When getbbox returns None (line 273), line 280 iterates over None and
Python raises an uncaught TypeError; that crash is modelled as none. -/
def process_slide (img : List (List ℕ)) (w h d : ℕ) (e : ℤ)
    (classify : Box × Box → ℕ) : Option (List SlideGrid) :=
  match getbbox img with
  | none => none
  | some wa => some (slice_loop classify 0 (plan_grid (work_area_max_res wa d) w h e))

/-- The per-slide loop of main, lines 255-354: slides are processed strictly
in order and nothing catches the TypeError of a blank slide, so the first
blank slide aborts the whole run (Except.error) and no later slide is
reached. -/
def run_slides (slides : List (List (List ℕ))) (w h d : ℕ) (e : ℤ)
    (classify : Box × Box → ℕ) : Except Unit (List (List SlideGrid)) :=
  match slides with
  | [] => .ok []
  | img :: rest =>
    match process_slide img w h d e classify with
    | none => .error ()
    | some m =>
      match run_slides rest w h d e classify with
      | .error u => .error u
      | .ok ms => .ok (m :: ms)

/-! Helper lemmas about the grid loop. -/

theorem length_flatMap_const {α : Type} (f : ℕ → List α) (R C : ℕ)
    (hf : ∀ j, (f j).length = C) : ((List.range R).flatMap f).length = R * C := by
  induction R with
  | zero => simp
  | succ R ih =>
    rw [List.range_succ, List.flatMap_append, List.length_append, ih]
    simp [hf, Nat.succ_mul]

theorem flatMap_range'_map_getElem? {α : Type} (f : ℕ → ℕ → α) (C R : ℕ) :
    ∀ (s j i : ℕ), j < R → i < C →
      ((List.range' s R).flatMap fun y => (List.range C).map fun x => f y x)[j * C + i]? =
        some (f (s + j) i) := by
  induction R with
  | zero => exact fun s j i hj _ => absurd hj (Nat.not_lt_zero j)
  | succ R ih =>
    intro s j i hj hi
    rw [List.range'_succ, List.flatMap_cons]
    cases j with
    | zero =>
      rw [Nat.zero_mul, Nat.zero_add,
        List.getElem?_append_left (by simpa using hi)]
      simp [List.getElem?_range hi]
    | succ j =>
      have hlen : ((List.range C).map fun x => f s x).length = C := by simp
      rw [List.getElem?_append_right (by rw [hlen, Nat.succ_mul]; omega), hlen]
      have harith : (j + 1) * C + i - C = j * C + i := by rw [Nat.succ_mul]; omega
      rw [harith, ih (s + 1) j i (Nat.lt_of_succ_lt_succ hj) hi]
      have hs : s + 1 + j = s + (j + 1) := by omega
      rw [hs]

theorem plan_grid_length (wa : Box) (w h : ℕ) (e : ℤ) :
    (plan_grid wa w h e).length = (num_images_y wa h + 1) * (num_images_x wa w + 1) := by
  unfold plan_grid
  exact length_flatMap_const _ _ _ fun j => by simp

theorem plan_grid_getElem? (wa : Box) (w h : ℕ) (e : ℤ) (j i : ℕ)
    (hj : j < num_images_y wa h + 1) (hi : i < num_images_x wa w + 1) :
    (plan_grid wa w h e)[j * (num_images_x wa w + 1) + i]? =
      some (mk_boundary_box wa w h i j,
            mk_boundary_box_small e (mk_boundary_box wa w h i j)) := by
  unfold plan_grid
  rw [List.range_eq_range']
  simpa using flatMap_range'_map_getElem?
    (fun y x => (mk_boundary_box wa w h x y,
                 mk_boundary_box_small e (mk_boundary_box wa w h x y)))
    (num_images_x wa w + 1) (num_images_y wa h + 1) 0 j i hj hi

/-- C1: for a work area of width w and height h in full-resolution coordinates
and positive tile size (tw, th), the planner computes cols = w / tw + 1 and
rows = h / th + 1, emits exactly cols * rows tiles, and the tile at list
position j * cols + i is the tile of column i, row j — row-major order with
rows as the outer loop and columns as the inner loop. -/
theorem grid_planner_row_major (x0 y0 w h tw th : ℕ) (e : ℤ)
    (htw : 0 < tw) (hth : 0 < th) :
    (plan_grid ⟨x0, y0, x0 + w, y0 + h⟩ tw th e).length = (w / tw + 1) * (h / th + 1) ∧
    ∀ j i, j < h / th + 1 → i < w / tw + 1 →
      (plan_grid ⟨x0, y0, x0 + w, y0 + h⟩ tw th e)[j * (w / tw + 1) + i]? =
        some (mk_boundary_box ⟨x0, y0, x0 + w, y0 + h⟩ tw th i j,
              mk_boundary_box_small e (mk_boundary_box ⟨x0, y0, x0 + w, y0 + h⟩ tw th i j)) := by
  have hx : num_images_x ⟨x0, y0, x0 + w, y0 + h⟩ tw = w / tw := by
    simp [num_images_x]
  have hy : num_images_y ⟨x0, y0, x0 + w, y0 + h⟩ th = h / th := by
    simp [num_images_y]
  constructor
  · rw [plan_grid_length, hx, hy, Nat.mul_comm]
  · intro j i hj hi
    have hres := plan_grid_getElem? ⟨x0, y0, x0 + w, y0 + h⟩ tw th e j i
      (by rw [hy]; exact hj) (by rw [hx]; exact hi)
    rw [hx] at hres
    exact hres

theorem grid_planner_row_major_witness :
    (plan_grid ⟨2, 3, 2 + 10, 3 + 10⟩ 5 5 (-1)).length = (10 / 5 + 1) * (10 / 5 + 1) ∧
    (plan_grid ⟨2, 3, 2 + 10, 3 + 10⟩ 5 5 (-1))[1 * (10 / 5 + 1) + 1]? =
      some (mk_boundary_box ⟨2, 3, 2 + 10, 3 + 10⟩ 5 5 1 1,
            mk_boundary_box_small (-1) (mk_boundary_box ⟨2, 3, 2 + 10, 3 + 10⟩ 5 5 1 1)) :=
  ⟨(grid_planner_row_major 2 3 10 10 5 5 (-1) (by decide) (by decide)).1,
   (grid_planner_row_major 2 3 10 10 5 5 (-1) (by decide) (by decide)).2 1 1
     (by decide) (by decide)⟩

/-- C6 (counterexample): in the end-to-end scenario with level_count = 4,
zoom = 3, best_resolution_level = 0 (max_zoom = 4) and preview work area
(0, 0, 2000, 1500), the factor of line 280 is 2 ^ (max_zoom - zoom) = 2, so
the scaled work area is (0, 0, 4000, 3000), not (0, 0, 16000, 12000), and the
planner emits 63 tiles, not 825. -/
theorem scenario_scale_counterexample :
    work_area_max_res ⟨0, 0, 2000, 1500⟩ (4 - 3) ≠ ⟨0, 0, 16000, 12000⟩ ∧
    (plan_grid (work_area_max_res ⟨0, 0, 2000, 1500⟩ (4 - 3)) 500 500 (3 - 4)).length ≠ 825 := by
  refine ⟨by decide, ?_⟩
  rw [plan_grid_length]
  decide

/-- C6 (amended): in the same scenario, scaling the preview work area
(0, 0, 2000, 1500) by 2 ^ (max_zoom - zoom) = 2 ^ (4 - 3) yields the
full-resolution work area (0, 0, 4000, 3000), and the planner produces
cols = 4000 / 500 + 1 = 9 and rows = 3000 / 500 + 1 = 7, for 63 tiles. -/
theorem scenario_scale_amended :
    work_area_max_res ⟨0, 0, 2000, 1500⟩ (4 - 3) = ⟨0, 0, 4000, 3000⟩ ∧
    num_images_x (work_area_max_res ⟨0, 0, 2000, 1500⟩ (4 - 3)) 500 + 1 = 9 ∧
    num_images_y (work_area_max_res ⟨0, 0, 2000, 1500⟩ (4 - 3)) 500 + 1 = 7 ∧
    (plan_grid (work_area_max_res ⟨0, 0, 2000, 1500⟩ (4 - 3)) 500 500 (3 - 4)).length = 9 * 7 := by
  refine ⟨by decide, by decide, by decide, ?_⟩
  rw [plan_grid_length]
  decide

/-! Helper lemmas about the classification-and-numbering loop. -/

theorem slice_loop_length (classify : Box × Box → ℕ) (n : ℕ) (gs : List (Box × Box)) :
    (slice_loop classify n gs).length = gs.length := by
  induction gs generalizing n with
  | nil => rfl
  | cons g rest ih => simp [slice_loop, ih]

theorem slice_loop_cons (classify : Box × Box → ℕ) (n : ℕ) (g : Box × Box)
    (rest : List (Box × Box)) :
    slice_loop classify n (g :: rest) =
      (⟨if classify g = 1 then n + 1 else n, g.1, g.2, classify g⟩ : SlideGrid) ::
        slice_loop classify (if classify g = 1 then n + 1 else n) rest := rfl

theorem slice_loop_getElem? (classify : Box × Box → ℕ) (n : ℕ) (gs : List (Box × Box)) (k : ℕ) :
    (slice_loop classify n gs)[k]? =
      (gs[k]?).map fun g =>
        (⟨n + ((gs.take (k + 1)).map classify).count 1, g.1, g.2, classify g⟩ : SlideGrid) := by
  induction gs generalizing n k with
  | nil => simp [slice_loop]
  | cons g rest ih =>
    cases k with
    | zero =>
      rw [slice_loop_cons, List.getElem?_cons_zero, List.getElem?_cons_zero]
      have hcount : (((g :: rest).take 1).map classify).count 1 =
          if classify g = 1 then 1 else 0 := by
        simp [List.count_cons]
      simp only [Option.map_some', Option.some.injEq, SlideGrid.mk.injEq, and_true]
      rw [hcount]
      by_cases hc : classify g = 1 <;> simp [hc]
    | succ k =>
      rw [slice_loop_cons, List.getElem?_cons_succ, List.getElem?_cons_succ, ih]
      have htake : (g :: rest).take (k + 1 + 1) = g :: rest.take (k + 1) := rfl
      rw [htake]
      cases rest[k]? with
      | none => rfl
      | some g2 =>
        simp only [Option.map_some', Option.some.injEq, SlideGrid.mk.injEq, List.map_cons,
          List.count_cons, beq_iff_eq, and_true]
        by_cases hc : classify g = 1 <;> simp [hc] <;> omega

/-- The numbers of the content tiles (flag = 1) in loop order. -/
def content_nums (gs : List SlideGrid) : List ℕ :=
  gs.filterMap fun t => if t.flag = 1 then some t.num else none

theorem slice_loop_content_nums (classify : Box × Box → ℕ) (n : ℕ) (gs : List (Box × Box)) :
    content_nums (slice_loop classify n gs) =
      List.range' (n + 1) ((gs.map classify).count 1) := by
  induction gs generalizing n with
  | nil => rfl
  | cons g rest ih =>
    simp only [content_nums] at ih ⊢
    rw [slice_loop_cons]
    simp only [List.filterMap_cons, List.map_cons, List.count_cons, beq_iff_eq]
    by_cases hc : classify g = 1
    · simp only [hc, reduceIte]
      rw [ih (n + 1), List.range'_succ]
    · simp only [hc, reduceIte]
      rw [ih n]
      simp

/-- C2: in loop order the numbers stored for content tiles (flag = 1) are the
consecutive integers 1..N where N is the number of content tiles, every tile
whose classifier output is 0 stores the count of content tiles seen before
it, and the classifier outputs [1, 0, 1, 1, 0] yield the stored numbers
[1, 1, 2, 3, 3]. -/
theorem sequence_numbering (geoms : List (Box × Box)) (classify : Box × Box → ℕ) :
    content_nums (slice_loop classify 0 geoms) =
      List.range' 1 ((geoms.map classify).count 1) ∧
    (∀ k, k < geoms.length → (geoms[k]?).map classify = some 0 →
      ((slice_loop classify 0 geoms)[k]?).map SlideGrid.num =
        some (((geoms.take k).map classify).count 1)) ∧
    (slice_loop (fun g => [1, 0, 1, 1, 0].getD g.1.x0 0) 0
        ((List.range 5).map fun k => (⟨k, 0, 0, 0⟩, ⟨0, 0, 0, 0⟩))).map SlideGrid.num =
      [1, 1, 2, 3, 3] := by
  refine ⟨by simpa using slice_loop_content_nums classify 0 geoms, ?_, by decide⟩
  intro k hk h0
  have hsome : geoms[k]? = some geoms[k] := List.getElem?_eq_getElem hk
  rw [hsome, Option.map_some', Option.some.injEq] at h0
  rw [slice_loop_getElem?, hsome]
  simp only [Option.map_some', Option.some.injEq]
  rw [List.take_succ, hsome, Option.toList_some, List.map_append, List.count_append]
  simp [List.count_cons, h0]

theorem sequence_numbering_witness :
    content_nums (slice_loop (fun g => [1, 0, 1, 1, 0].getD g.1.x0 0) 0
        ((List.range 5).map fun k => (⟨k, 0, 0, 0⟩, ⟨0, 0, 0, 0⟩))) =
      List.range' 1 ((((List.range 5).map fun k =>
        ((⟨k, 0, 0, 0⟩ : Box), (⟨0, 0, 0, 0⟩ : Box))).map
          fun g => [1, 0, 1, 1, 0].getD g.1.x0 0).count 1) ∧
    ((slice_loop (fun g => [1, 0, 1, 1, 0].getD g.1.x0 0) 0
        ((List.range 5).map fun k => (⟨k, 0, 0, 0⟩, ⟨0, 0, 0, 0⟩)))[1]?).map SlideGrid.num =
      some (((((List.range 5).map fun k =>
        ((⟨k, 0, 0, 0⟩ : Box), (⟨0, 0, 0, 0⟩ : Box))).take 1).map
          fun g => [1, 0, 1, 1, 0].getD g.1.x0 0).count 1) :=
  ⟨(sequence_numbering _ _).1,
   (sequence_numbering _ _).2.1 1 (by decide) (by decide)⟩

/-- C3: detect_empty_slide is a deterministic pure function of the pixel
buffer and the two thresholds; on a non-empty buffer it returns the
background flag 0 when alpha_pixels_ratio ≤ threshold_alpha, otherwise it
returns background exactly when red_blue_ratio exceeds the color-ratio
threshold and content (flag 1) otherwise; with the default thresholds,
alpha ratio 1 and color ratio 0 give content, and alpha ratio 1/5 gives
background for every color-ratio threshold. -/
theorem classifier_thresholds :
    (∀ (p₁ p₂ : List RGBA) (ta₁ ta₂ tr₁ tr₂ : ℚ), p₁ = p₂ → ta₁ = ta₂ → tr₁ = tr₂ →
      detect_empty_slide p₁ ta₁ tr₁ = detect_empty_slide p₂ ta₂ tr₂) ∧
    (∀ (p : List RGBA) (ta tr : ℚ), p ≠ [] → alpha_pixels_ratio p ≤ ta →
      detect_empty_slide p ta tr = some 0) ∧
    (∀ (p : List RGBA) (ta tr : ℚ), p ≠ [] → ta < alpha_pixels_ratio p →
      (detect_empty_slide p ta tr = some 0 ↔ tr < red_blue_ratio p) ∧
      (detect_empty_slide p ta tr = some 1 ↔ red_blue_ratio p ≤ tr)) ∧
    (∀ p : List RGBA, p ≠ [] → alpha_pixels_ratio p = 1 → red_blue_ratio p = 0 →
      detect_empty_slide p default_threshold_alpha default_threshold_red_blue_ratio =
        some 1) ∧
    (∀ (p : List RGBA) (tr : ℚ), p ≠ [] → alpha_pixels_ratio p = 1/5 →
      detect_empty_slide p default_threshold_alpha tr = some 0) := by
  refine ⟨fun p₁ p₂ ta₁ ta₂ tr₁ tr₂ hp hta htr => by rw [hp, hta, htr], ?_, ?_, ?_, ?_⟩
  · intro p ta tr hp hle
    have hlen : ¬ p.length = 0 := by simpa using hp
    rw [detect_empty_slide, if_neg hlen, if_neg (not_lt.mpr hle)]
  · intro p ta tr hp hgt
    have hlen : ¬ p.length = 0 := by simpa using hp
    rw [detect_empty_slide, if_neg hlen, if_pos hgt]
    by_cases hr2 : red_blue_ratio p > tr
    · simp [hr2, not_le.mpr hr2]
    · simp [hr2, not_lt.mp hr2]
  · intro p hp ha hr
    have hlen : ¬ p.length = 0 := by simpa using hp
    rw [detect_empty_slide, if_neg hlen, if_pos (by rw [ha]; norm_num [default_threshold_alpha]),
      if_neg (by rw [hr]; norm_num [default_threshold_red_blue_ratio])]
  · intro p tr hp ha
    have hlen : ¬ p.length = 0 := by simpa using hp
    rw [detect_empty_slide, if_neg hlen,
      if_neg (by rw [ha]; norm_num [default_threshold_alpha])]

theorem classifier_thresholds_witness :
    detect_empty_slide [⟨255, 0, 0, 255⟩] default_threshold_alpha
      default_threshold_red_blue_ratio = some 1 ∧
    detect_empty_slide [⟨0, 0, 255, 1⟩, ⟨0, 0, 255, 0⟩, ⟨0, 0, 255, 0⟩,
      ⟨0, 0, 255, 0⟩, ⟨0, 0, 255, 0⟩] default_threshold_alpha 0 = some 0 ∧
    detect_empty_slide [⟨1, 0, 9, 3⟩] (1/4) (1/2) =
      detect_empty_slide [⟨1, 0, 9, 3⟩] (1/4) (1/2) :=
  ⟨classifier_thresholds.2.2.2.1 [⟨255, 0, 0, 255⟩] (by decide)
      (by norm_num [alpha_pixels_ratio, alpha_nonzero_count, List.filter])
      (by norm_num [red_blue_ratio, blue_pixels_count, red_pixels_count]),
   classifier_thresholds.2.2.2.2 _ 0 (by decide)
      (by norm_num [alpha_pixels_ratio, alpha_nonzero_count, List.filter]),
   classifier_thresholds.1 _ _ _ _ _ _ rfl rfl rfl⟩

/-- C10: on every non-empty pixel buffer detect_empty_slide returns normally
with a flag that is exactly 0 or 1; on the zero-pixel buffer the alpha-ratio
computation of line 77 divides by zero (modelled as none), so non-emptiness
is exactly the precondition making the error branch unreachable. -/
theorem classifier_total_on_nonempty :
    (∀ (p : List RGBA) (ta tr : ℚ), p ≠ [] →
      detect_empty_slide p ta tr = some 0 ∨ detect_empty_slide p ta tr = some 1) ∧
    (∀ ta tr : ℚ, detect_empty_slide [] ta tr = none) := by
  constructor
  · intro p ta tr hp
    have hlen : ¬ p.length = 0 := by simpa using hp
    rw [detect_empty_slide, if_neg hlen]
    by_cases h1 : alpha_pixels_ratio p > ta
    · rw [if_pos h1]
      by_cases h2 : red_blue_ratio p > tr
      · exact Or.inl (by rw [if_pos h2])
      · exact Or.inr (by rw [if_neg h2])
    · exact Or.inl (by rw [if_neg h1])
  · intro ta tr
    rfl

theorem classifier_total_on_nonempty_witness :
    detect_empty_slide [⟨7, 7, 7, 7⟩] 0 0 = some 0 ∨
    detect_empty_slide [⟨7, 7, 7, 7⟩] 0 0 = some 1 :=
  classifier_total_on_nonempty.1 [⟨7, 7, 7, 7⟩] 0 0 (by decide)

/-! Helper lemmas for the preview-box scaling. -/

theorem floor_natCast_div (c d : ℕ) :
    ⌊(c : ℚ) / (d : ℚ)⌋ = ((c / d : ℕ) : ℤ) := by
  have h0 : (0 : ℚ) ≤ (c : ℚ) / (d : ℚ) := by positivity
  rw [← Int.natCast_floor_eq_floor h0]
  congr 1
  rw [Nat.floor_div_nat, Nat.floor_natCast]

/-- scale_coord_small is exactly the truncation of the real product
c * 2 ^ e, for both signs of the exponent. -/
theorem scale_coord_small_eq_floor (e : ℤ) (c : ℕ) :
    (scale_coord_small e c : ℤ) = ⌊(c : ℚ) * (2 : ℚ) ^ e⌋ := by
  unfold scale_coord_small
  by_cases he : 0 ≤ e
  · rw [if_pos he]
    have h2 : (2 : ℚ) ^ e = ((2 ^ e.toNat : ℕ) : ℚ) := by
      push_cast
      rw [← zpow_natCast (2 : ℚ) e.toNat, Int.toNat_of_nonneg he]
    rw [h2, ← Nat.cast_mul, Int.floor_natCast]
  · rw [if_neg he]
    have hpos : (0 : ℤ) ≤ -e := by omega
    have h3 : (2 : ℚ) ^ e = ((2 : ℚ) ^ (-e))⁻¹ := by
      rw [← zpow_neg, neg_neg]
    have h4 : (2 : ℚ) ^ (-e) = ((2 ^ (-e).toNat : ℕ) : ℚ) := by
      push_cast
      rw [← zpow_natCast (2 : ℚ) (-e).toNat, Int.toNat_of_nonneg hpos]
    rw [h3, h4, ← div_eq_mul_inv, floor_natCast_div]

theorem plan_grid_mem_shape (wa : Box) (w h : ℕ) (e : ℤ) (g : Box × Box)
    (hg : g ∈ plan_grid wa w h e) : g.2 = mk_boundary_box_small e g.1 := by
  unfold plan_grid at hg
  simp only [List.mem_flatMap, List.mem_map, List.mem_range] at hg
  obtain ⟨j, hj, i, hi, rfl⟩ := hg
  rfl

/-- C4: for every tile emitted by the grid loop, recomputing the stored
boundary_box_small from the stored boundary_box — scaling each coordinate by
2 ^ (zoom - max_zoom) (here e) and truncating to an integer — reproduces the
stored value exactly, hence within one pixel per coordinate. -/
theorem preview_box_rederivable (wa : Box) (w h : ℕ) (e : ℤ) (g : Box × Box)
    (hg : g ∈ plan_grid wa w h e) :
    (⌊(g.1.x0 : ℚ) * (2 : ℚ) ^ e⌋ = (g.2.x0 : ℤ) ∧
     ⌊(g.1.y0 : ℚ) * (2 : ℚ) ^ e⌋ = (g.2.y0 : ℤ) ∧
     ⌊(g.1.x1 : ℚ) * (2 : ℚ) ^ e⌋ = (g.2.x1 : ℤ) ∧
     ⌊(g.1.y1 : ℚ) * (2 : ℚ) ^ e⌋ = (g.2.y1 : ℤ)) ∧
    (|⌊(g.1.x0 : ℚ) * (2 : ℚ) ^ e⌋ - (g.2.x0 : ℤ)| ≤ 1 ∧
     |⌊(g.1.y0 : ℚ) * (2 : ℚ) ^ e⌋ - (g.2.y0 : ℤ)| ≤ 1 ∧
     |⌊(g.1.x1 : ℚ) * (2 : ℚ) ^ e⌋ - (g.2.x1 : ℤ)| ≤ 1 ∧
     |⌊(g.1.y1 : ℚ) * (2 : ℚ) ^ e⌋ - (g.2.y1 : ℤ)| ≤ 1) := by
  have hshape := plan_grid_mem_shape wa w h e g hg
  have h1 : (g.2.x0 : ℤ) = ⌊(g.1.x0 : ℚ) * (2 : ℚ) ^ e⌋ := by
    rw [hshape]; exact scale_coord_small_eq_floor e g.1.x0
  have h2 : (g.2.y0 : ℤ) = ⌊(g.1.y0 : ℚ) * (2 : ℚ) ^ e⌋ := by
    rw [hshape]; exact scale_coord_small_eq_floor e g.1.y0
  have h3 : (g.2.x1 : ℤ) = ⌊(g.1.x1 : ℚ) * (2 : ℚ) ^ e⌋ := by
    rw [hshape]; exact scale_coord_small_eq_floor e g.1.x1
  have h4 : (g.2.y1 : ℤ) = ⌊(g.1.y1 : ℚ) * (2 : ℚ) ^ e⌋ := by
    rw [hshape]; exact scale_coord_small_eq_floor e g.1.y1
  refine ⟨⟨h1.symm, h2.symm, h3.symm, h4.symm⟩, ?_, ?_, ?_, ?_⟩
  · rw [← h1]; simp
  · rw [← h2]; simp
  · rw [← h3]; simp
  · rw [← h4]; simp

theorem preview_box_rederivable_witness :
    ⌊((5 : ℕ) : ℚ) * (2 : ℚ) ^ (-1 : ℤ)⌋ = ((2 : ℕ) : ℤ) ∧
    |⌊((5 : ℕ) : ℚ) * (2 : ℚ) ^ (-1 : ℤ)⌋ - ((2 : ℕ) : ℤ)| ≤ 1 :=
  ⟨(preview_box_rederivable ⟨0, 0, 10, 10⟩ 5 5 (-1) (⟨5, 5, 10, 10⟩, ⟨2, 2, 5, 5⟩)
      (by decide)).1.1,
   (preview_box_rederivable ⟨0, 0, 10, 10⟩ 5 5 (-1) (⟨5, 5, 10, 10⟩, ⟨2, 2, 5, 5⟩)
      (by decide)).2.1⟩

/-- C7 (counterexample): the JSON object serialized for a tile carries the
attribute names of the SlideGrid record — num, boundary_box,
boundary_box_small, flag — and none of the names sequence_number,
full_res_box, preview_box, is_content appear among its fields. -/
theorem manifest_field_names_counterexample :
    (vars_slide_grid ⟨1, ⟨0, 0, 500, 500⟩, ⟨0, 0, 31, 31⟩, 1⟩).map Prod.fst =
      ["num", "boundary_box", "boundary_box_small", "flag"] ∧
    "sequence_number" ∉
      (vars_slide_grid ⟨1, ⟨0, 0, 500, 500⟩, ⟨0, 0, 31, 31⟩, 1⟩).map Prod.fst ∧
    "is_content" ∉
      (vars_slide_grid ⟨1, ⟨0, 0, 500, 500⟩, ⟨0, 0, 31, 31⟩, 1⟩).map Prod.fst := by
  refine ⟨rfl, by decide, by decide⟩

/-- C7 (amended): the serialized manifest is an array with exactly one object
per tile, content and background alike, in grid order, and every object has
exactly the four fields num, boundary_box, boundary_box_small and flag —
the code's names for the sequence number, the full-resolution box, the
preview box and the content flag. -/
theorem manifest_structure (gs : List SlideGrid) :
    (manifest_json gs).length = gs.length ∧
    (∀ k : ℕ, (manifest_json gs)[k]? = (gs[k]?).map vars_slide_grid) ∧
    (∀ o ∈ manifest_json gs,
      o.map Prod.fst = ["num", "boundary_box", "boundary_box_small", "flag"]) := by
  refine ⟨by simp [manifest_json], ?_, ?_⟩
  · intro k
    simp [manifest_json, List.getElem?_map]
  intro o ho
  simp only [manifest_json, List.mem_map] at ho
  obtain ⟨sg, _, rfl⟩ := ho
  rfl

theorem manifest_structure_witness :
    (manifest_json [⟨1, ⟨0, 0, 5, 5⟩, ⟨0, 0, 2, 2⟩, 1⟩]).length = 1 ∧
    (manifest_json [⟨1, ⟨0, 0, 5, 5⟩, ⟨0, 0, 2, 2⟩, 1⟩])[0]? =
      some (vars_slide_grid ⟨1, ⟨0, 0, 5, 5⟩, ⟨0, 0, 2, 2⟩, 1⟩) ∧
    (vars_slide_grid ⟨1, ⟨0, 0, 5, 5⟩, ⟨0, 0, 2, 2⟩, 1⟩).map Prod.fst =
      ["num", "boundary_box", "boundary_box_small", "flag"] :=
  ⟨(manifest_structure [⟨1, ⟨0, 0, 5, 5⟩, ⟨0, 0, 2, 2⟩, 1⟩]).1,
   (manifest_structure [⟨1, ⟨0, 0, 5, 5⟩, ⟨0, 0, 2, 2⟩, 1⟩]).2.1 0,
   (manifest_structure [⟨1, ⟨0, 0, 5, 5⟩, ⟨0, 0, 2, 2⟩, 1⟩]).2.2 _
     (by simp [manifest_json])⟩

/-! Helper lemmas about the overview crop rectangle. -/

theorem crop_box_cons (g0 : SlideGrid) (rest : List SlideGrid) (glast : SlideGrid)
    (hl : (g0 :: rest).getLast? = some glast) :
    crop_box (g0 :: rest) =
      some ⟨g0.boundary_box_small.x0, g0.boundary_box_small.y0,
            glast.boundary_box_small.x1 + 1, glast.boundary_box_small.y1 + 1⟩ := by
  rw [List.getLast?_eq_getLast (g0 :: rest) (List.cons_ne_nil g0 rest)] at hl
  injection hl with h
  rw [← h]
  rfl

theorem crop_box_eq_of_getElem? (gs : List SlideGrid) (hne : gs ≠ [])
    (a b : SlideGrid) (h0 : gs[0]? = some a) (hl : gs[gs.length - 1]? = some b) :
    crop_box gs = some ⟨a.boundary_box_small.x0, a.boundary_box_small.y0,
      b.boundary_box_small.x1 + 1, b.boundary_box_small.y1 + 1⟩ := by
  obtain ⟨g0, rest, rfl⟩ := List.exists_cons_of_ne_nil hne
  rw [List.getElem?_cons_zero] at h0
  injection h0 with h0
  subst h0
  exact crop_box_cons g0 rest b (by rw [List.getLast?_eq_getElem?]; exact hl)

/-- Replacing every tile's flag while keeping its number and boxes; used to
state that the crop rectangle does not depend on the classification. -/
def with_flag (f : SlideGrid → ℕ) (g : SlideGrid) : SlideGrid :=
  ⟨g.num, g.boundary_box, g.boundary_box_small, f g⟩

/-- C8: for every non-empty tile list the overview crop rectangle runs from
the first tile's preview box upper-left corner through the LAST tile's
preview box lower-right corner (exclusive bounds, hence the +1), regardless
of which tiles are flagged content; on the grid produced by the loop, that
last tile is the bottom-right tile (column num_images_x, row num_images_y)
of the grid, for every classifier. -/
theorem crop_spans_first_to_last (gs : List SlideGrid) (hne : gs ≠ []) :
    (∃ gfirst glast, gs.head? = some gfirst ∧ gs.getLast? = some glast ∧
      crop_box gs = some ⟨gfirst.boundary_box_small.x0, gfirst.boundary_box_small.y0,
        glast.boundary_box_small.x1 + 1, glast.boundary_box_small.y1 + 1⟩) ∧
    (∀ f : SlideGrid → ℕ, crop_box (gs.map (with_flag f)) = crop_box gs) ∧
    (∀ (wa : Box) (tw th : ℕ) (e : ℤ) (classify : Box × Box → ℕ),
      crop_box (slice_loop classify 0 (plan_grid wa tw th e)) =
        some ⟨(mk_boundary_box_small e (mk_boundary_box wa tw th 0 0)).x0,
              (mk_boundary_box_small e (mk_boundary_box wa tw th 0 0)).y0,
              (mk_boundary_box_small e (mk_boundary_box wa tw th
                (num_images_x wa tw) (num_images_y wa th))).x1 + 1,
              (mk_boundary_box_small e (mk_boundary_box wa tw th
                (num_images_x wa tw) (num_images_y wa th))).y1 + 1⟩) := by
  obtain ⟨g0, rest, rfl⟩ := List.exists_cons_of_ne_nil hne
  refine ⟨⟨g0, (g0 :: rest).getLast (List.cons_ne_nil g0 rest), rfl,
    List.getLast?_eq_getLast _ _, crop_box_cons _ _ _ (List.getLast?_eq_getLast _ _)⟩,
    ?_, ?_⟩
  · intro f
    have hl := List.getLast?_eq_getLast (g0 :: rest) (List.cons_ne_nil g0 rest)
    have hlmap : ((g0 :: rest).map (with_flag f)).getLast? =
        some (with_flag f ((g0 :: rest).getLast (List.cons_ne_nil g0 rest))) := by
      rw [List.getLast?_map, hl, Option.map_some']
    rw [List.map_cons] at hlmap
    rw [List.map_cons, crop_box_cons _ _ _ hlmap,
      crop_box_cons _ _ _ hl]
    rfl
  · intro wa tw th e classify
    have hlen : (slice_loop classify 0 (plan_grid wa tw th e)).length =
        (num_images_y wa th + 1) * (num_images_x wa tw + 1) := by
      rw [slice_loop_length, plan_grid_length]
    have hne2 : slice_loop classify 0 (plan_grid wa tw th e) ≠ [] := by
      refine List.length_pos.mp ?_
      rw [hlen]
      exact Nat.mul_pos (Nat.succ_pos _) (Nat.succ_pos _)
    have hg0 : (plan_grid wa tw th e)[0]? =
        some (mk_boundary_box wa tw th 0 0,
              mk_boundary_box_small e (mk_boundary_box wa tw th 0 0)) := by
      simpa using plan_grid_getElem? wa tw th e 0 0 (Nat.succ_pos _) (Nat.succ_pos _)
    have h0 := slice_loop_getElem? classify 0 (plan_grid wa tw th e) 0
    rw [hg0, Option.map_some'] at h0
    have hglast := plan_grid_getElem? wa tw th e (num_images_y wa th) (num_images_x wa tw)
      (Nat.lt_succ_self _) (Nat.lt_succ_self _)
    have hl2 := slice_loop_getElem? classify 0 (plan_grid wa tw th e)
      (num_images_y wa th * (num_images_x wa tw + 1) + num_images_x wa tw)
    rw [hglast, Option.map_some'] at hl2
    have hidx : (slice_loop classify 0 (plan_grid wa tw th e)).length - 1 =
        num_images_y wa th * (num_images_x wa tw + 1) + num_images_x wa tw := by
      rw [hlen, Nat.succ_mul]
      generalize num_images_y wa th * (num_images_x wa tw + 1) = A
      omega
    rw [crop_box_eq_of_getElem? _ hne2 _ _ h0 (by rw [hidx]; exact hl2)]

theorem crop_spans_first_to_last_witness :
    crop_box ([⟨1, ⟨0, 0, 5, 5⟩, ⟨0, 0, 2, 2⟩, 1⟩,
               ⟨1, ⟨5, 0, 10, 5⟩, ⟨2, 0, 5, 2⟩, 0⟩].map (with_flag fun _ => 0)) =
      crop_box [⟨1, ⟨0, 0, 5, 5⟩, ⟨0, 0, 2, 2⟩, 1⟩,
                ⟨1, ⟨5, 0, 10, 5⟩, ⟨2, 0, 5, 2⟩, 0⟩] :=
  (crop_spans_first_to_last
    [⟨1, ⟨0, 0, 5, 5⟩, ⟨0, 0, 2, 2⟩, 1⟩, ⟨1, ⟨5, 0, 10, 5⟩, ⟨2, 0, 5, 2⟩, 0⟩]
    (by decide)).2.1 (fun _ => 0)

/-- C9: grid planning, classification and numbering are a pure function of
the slide data and configuration — two runs on the same work area, tile
size, scale exponent and classifier produce tile lists that agree per tile
on boundary_box, boundary_box_small, flag and num, and serialize to the same
manifest. -/
theorem pipeline_deterministic (wa₁ wa₂ : Box) (tw₁ tw₂ th₁ th₂ : ℕ) (e₁ e₂ : ℤ)
    (c₁ c₂ : Box × Box → ℕ) (hwa : wa₁ = wa₂) (htw : tw₁ = tw₂) (hth : th₁ = th₂)
    (he : e₁ = e₂) (hc : c₁ = c₂) :
    slice_loop c₁ 0 (plan_grid wa₁ tw₁ th₁ e₁) =
      slice_loop c₂ 0 (plan_grid wa₂ tw₂ th₂ e₂) ∧
    (∀ k : ℕ, ((slice_loop c₁ 0 (plan_grid wa₁ tw₁ th₁ e₁))[k]?).map SlideGrid.boundary_box =
      ((slice_loop c₂ 0 (plan_grid wa₂ tw₂ th₂ e₂))[k]?).map SlideGrid.boundary_box) ∧
    (∀ k : ℕ, ((slice_loop c₁ 0 (plan_grid wa₁ tw₁ th₁ e₁))[k]?).map SlideGrid.boundary_box_small =
      ((slice_loop c₂ 0 (plan_grid wa₂ tw₂ th₂ e₂))[k]?).map SlideGrid.boundary_box_small) ∧
    (∀ k : ℕ, ((slice_loop c₁ 0 (plan_grid wa₁ tw₁ th₁ e₁))[k]?).map SlideGrid.flag =
      ((slice_loop c₂ 0 (plan_grid wa₂ tw₂ th₂ e₂))[k]?).map SlideGrid.flag) ∧
    (∀ k : ℕ, ((slice_loop c₁ 0 (plan_grid wa₁ tw₁ th₁ e₁))[k]?).map SlideGrid.num =
      ((slice_loop c₂ 0 (plan_grid wa₂ tw₂ th₂ e₂))[k]?).map SlideGrid.num) ∧
    manifest_json (slice_loop c₁ 0 (plan_grid wa₁ tw₁ th₁ e₁)) =
      manifest_json (slice_loop c₂ 0 (plan_grid wa₂ tw₂ th₂ e₂)) := by
  subst hwa htw hth he hc
  exact ⟨rfl, fun _ => rfl, fun _ => rfl, fun _ => rfl, fun _ => rfl, rfl⟩

theorem pipeline_deterministic_witness :
    manifest_json (slice_loop (fun _ => 1) 0 (plan_grid ⟨0, 0, 4, 4⟩ 2 2 0)) =
      manifest_json (slice_loop (fun _ => 1) 0 (plan_grid ⟨0, 0, 4, 4⟩ 2 2 0)) :=
  (pipeline_deterministic ⟨0, 0, 4, 4⟩ ⟨0, 0, 4, 4⟩ 2 2 2 2 0 0 (fun _ => 1) (fun _ => 1)
    rfl rfl rfl rfl rfl).2.2.2.2.2

/-- C5 (required behavior the code does not implement): on a slide whose
preview level is uniformly zero, getbbox yields no work area; the claim
requires the slide to be skipped and the run to continue, but the loop of
main scales the missing work area unconditionally (line 280), Python raises
an uncaught TypeError, and the run aborts before any later slide — here a
blank slide followed by a processable slide ends in the error state, while
the same processable slide alone yields its tile list. -/
theorem blank_slide_aborts_run :
    getbbox [[0, 0], [0, 0]] = none ∧
    run_slides [[[0, 0], [0, 0]], [[0, 1], [0, 0]]] 2 2 0 0 (fun _ => 1) =
      Except.error () ∧
    run_slides [[[0, 1], [0, 0]]] 2 2 0 0 (fun _ => 1) =
      Except.ok [[⟨1, ⟨1, 0, 3, 2⟩, ⟨1, 0, 3, 2⟩, 1⟩]] :=
  ⟨rfl, rfl, rfl⟩
